import Mathlib

/-!
Shallow embedding of the core of the `spacevibing` space-flythrough demo:
the shooting-star particle pool (`src/unnamed/part_002`, the starfield
component), the camera spline path (`src/js/utils/cameraPath.js`) and the
dramatic supernova event controller plus frame loop (`src/js/main.js`).

Numbers: JavaScript numbers are IEEE binary64 values, hence rationals, and
every quantity is embedded as `ℚ`.  Random draws (`Math.random()` and the
derived uniform samples) are passed to each embedded function as explicit
inputs, and so are the values the source obtains from `Math.sin`/`Math.cos`
(the trigonometric sample an evaluation returns is itself a binary64
rational); where a claim needs the sinusoidal shape, the sample carries the
bound `|sample| ≤ 1` that every sine evaluation satisfies.
-/

/-- Rational 3D vector, the embedding of `THREE.Vector3` as used by this
program (positions, velocities, control points). -/
structure Vec3 where
  x : ℚ
  y : ℚ
  z : ℚ
deriving DecidableEq, Repr

/-- Origin, the embedding of `new THREE.Vector3(0, 0, 0)`. -/
def Vec3.zero : Vec3 := ⟨0, 0, 0⟩

/-- Embedding of `THREE.MathUtils.mapLinear(x, a1, a2, b1, b2)`:
linear remapping of `x` from the interval `[a1, a2]` to `[b1, b2]`. -/
def mapLinear (x a1 a2 b1 b2 : ℚ) : ℚ :=
  b1 + (x - a1) * (b2 - b1) / (a2 - a1)

/-- Embedding of `new THREE.Vector3().lerpVectors(a, b, t)`:
componentwise `a + (b - a) * t`. -/
def lerpVectors (a b : Vec3) (t : ℚ) : Vec3 :=
  ⟨a.x + (b.x - a.x) * t, a.y + (b.y - a.y) * t, a.z + (b.z - a.z) * t⟩

/-! ## Shooting-star pool (`createShootingStars` in the starfield component)

The pool has `count = 20` slots (per-slot position, size and alpha buffers)
and at most `activeMax = 3` concurrently active shooting-star instances,
kept in the `activeShootingStars` list. -/

/-- Pool size: `const count = 20` in `createShootingStars`. -/
def ssCount : ℕ := 20

/-- Concurrency cap: `const activeMax = 3` in `createShootingStars`. -/
def ssActiveMax : ℕ := 3

/-- One active shooting-star instance, the embedding of the `shootingStar`
record built in `createNewShootingStar`. -/
structure ShootingStar where
  index : ℕ
  startPosition : Vec3
  endPosition : Vec3
  progress : ℚ
  speed : ℚ
  size : ℚ
  maxAlpha : ℚ
deriving DecidableEq, Repr

/-- State of the shooting-star system: the per-slot attribute buffers
(`positions`, `sizes`, `alphas`, each of length `ssCount`), the
`activeShootingStars` list, and the `lastCheck` timestamp used by the
3-second spawn timer. -/
structure SSState where
  positions : List Vec3
  sizes : List ℚ
  alphas : List ℚ
  activeShootingStars : List ShootingStar
  lastCheck : ℚ
deriving DecidableEq, Repr

/-- Initial shooting-star state: every slot zeroed and hidden
(`alphas[i] = 0`), no active instances, `lastCheck = 0`. -/
def initSSState : SSState :=
  { positions := List.replicate ssCount Vec3.zero
  , sizes := List.replicate ssCount 0
  , alphas := List.replicate ssCount 0
  , activeShootingStars := []
  , lastCheck := 0 }

/-- Random draws consumed by one call of `createNewShootingStar`.  The source
draws angles `phi`, `theta` (and end-point variants) and feeds them through
`Math.sin` and `Math.cos`; the embedding receives those trigonometric samples
directly, together with the uniformly drawn `radius` (`randFloat 300 600`),
`speed` (`randFloat 0.5 2.0`), `size` (`randFloat 6 10`) and `maxAlpha`
(`randFloat 0.7 1.0`). -/
structure SpawnParams where
  sinPhi : ℚ
  cosPhi : ℚ
  sinTheta : ℚ
  cosTheta : ℚ
  radius : ℚ
  sinEndPhi : ℚ
  cosEndPhi : ℚ
  sinEndTheta : ℚ
  cosEndTheta : ℚ
  speed : ℚ
  size : ℚ
  maxAlpha : ℚ
deriving DecidableEq, Repr

/-- Slot search in `createNewShootingStar`: the first index `i < count` with
`alphas.array[i] <= 0`, or `none` when every slot is in use. -/
def findFreeSlot (alphas : List ℚ) : Option ℕ :=
  (List.range ssCount).find? (fun i => decide (alphas.getD i 0 ≤ 0))

/-- Embedding of `createNewShootingStar`: returns unchanged (`return`) when
`activeShootingStars.length >= activeMax` or when no slot has alpha `≤ 0`;
otherwise writes the slot's position and size, sets the slot's alpha to the
faint initial value `0.1`, and appends the new instance to the active list. -/
def createNewShootingStar (p : SpawnParams) (st : SSState) : SSState :=
  if ssActiveMax ≤ st.activeShootingStars.length then st
  else
    match findFreeSlot st.alphas with
    | none => st
    | some slot =>
      let startX := p.radius * p.sinPhi * p.cosTheta
      let startY := p.radius * p.cosPhi
      let startZ := p.radius * p.sinPhi * p.sinTheta
      let endX := p.radius * p.sinEndPhi * p.cosEndTheta
      let endY := p.radius * p.cosEndPhi
      let endZ := p.radius * p.sinEndPhi * p.sinEndTheta
      let star : ShootingStar :=
        { index := slot
        , startPosition := ⟨startX, startY, startZ⟩
        , endPosition := ⟨endX, endY, endZ⟩
        , progress := 0
        , speed := p.speed
        , size := p.size
        , maxAlpha := p.maxAlpha }
      { st with
        positions := st.positions.set slot star.startPosition
        , sizes := st.sizes.set slot star.size
        , alphas := st.alphas.set slot (1/10)
        , activeShootingStars := st.activeShootingStars ++ [star] }

/-- Per-frame progress advance in `updateShootingStars`:
`star.progress += deltaTime * star.speed * 0.1`. -/
def stepStar (dt : ℚ) (s : ShootingStar) : ShootingStar :=
  { s with progress := s.progress + dt * s.speed * (1/10) }

/-- Alpha computed by `updateShootingStars` for a star at its current
progress: `newAlpha` starts at 0, then fade-in below `0.2`, full visibility
below `0.8`, fade-out below `1`, and `0` from `1` on. -/
def starNewAlpha (s : ShootingStar) : ℚ :=
  if s.progress < 1/5 then mapLinear s.progress 0 (1/5) 0 s.maxAlpha
  else if s.progress < 4/5 then s.maxAlpha
  else if s.progress < 1 then mapLinear s.progress (4/5) 1 s.maxAlpha 0
  else 0

/-- Embedding of the loop body of `updateShootingStars`.  The source iterates
`i` from the end of `activeShootingStars` down to `0`; the recursion below
processes the list tail (the higher positions) first and the head last,
matching that order.  Each star is advanced, its slot position and alpha are
written, and on `progress >= 1.0` the slot alpha is forced to `0` and the
instance is spliced out of the active list. -/
def updateLoop (dt : ℚ) :
    List ShootingStar → List Vec3 → List ℚ →
      List ShootingStar × List Vec3 × List ℚ
  | [], pos, a => ([], pos, a)
  | s :: rest, pos, a =>
    let r := updateLoop dt rest pos a
    let s' := stepStar dt s
    let posNew := r.2.1.set s'.index (lerpVectors s'.startPosition s'.endPosition s'.progress)
    let aNew := r.2.2.set s'.index (starNewAlpha s')
    if 1 ≤ s'.progress then (r.1, posNew, aNew.set s'.index 0)
    else (s' :: r.1, posNew, aNew)

/-- Embedding of `updateShootingStars(deltaTime)`. -/
def updateShootingStars (dt : ℚ) (st : SSState) : SSState :=
  { st with
    activeShootingStars := (updateLoop dt st.activeShootingStars st.positions st.alphas).1
    , positions := (updateLoop dt st.activeShootingStars st.positions st.alphas).2.1
    , alphas := (updateLoop dt st.activeShootingStars st.positions st.alphas).2.2 }

/-- Embedding of the `shootingStars.userData.update(deltaTime)` closure:
update all active stars, then, when `now - lastCheck > 3000`, reset the timer
and with probability `0.4` (`rand < 0.4` for the supplied draw) attempt a
spawn. -/
def shootingStarsFrameUpdate (dt now rand : ℚ) (p : SpawnParams) (st : SSState) : SSState :=
  let st1 := updateShootingStars dt st
  if 3000 < now - st1.lastCheck then
    let st2 := { st1 with lastCheck := now }
    if rand < 2/5 then createNewShootingStar p st2 else st2
  else st1

/-- States of the shooting-star system reachable from the initial state by
frame updates (the only code paths that ever mutate the pool). -/
inductive SSReachable : SSState → Prop
  | init : SSReachable initSSState
  | step (dt now rand : ℚ) (p : SpawnParams) {st : SSState} :
      SSReachable st → SSReachable (shootingStarsFrameUpdate dt now rand p st)

/-! ## Camera spline path (`src/js/utils/cameraPath.js`)

The `CameraPath` class stores the control points and a derived curve; the
curve object is a three.js `CatmullRomCurve3` whose source is a library
dependency, not part of this repository.  Its evaluation is therefore
modelled from the spec (see `curvePointAt`). -/

/-- Wrapping of the curve parameter into `[0, 1)` — the fractional part
`t - ⌊t⌋`.  The spec states that `pointAt` takes `t` modulo `1.0`. -/
def tmod1 (t : ℚ) : ℚ := Int.fract t

/-- One-dimensional Catmull-Rom cubic through `p0 p1 p2 p3` at local
parameter `w ∈ [0, 1]` (uniform knots, the standard half-tension form). -/
def catmullRom (p0 p1 p2 p3 w : ℚ) : ℚ :=
  (2 * p1 + (p2 - p0) * w + (2 * p0 - 5 * p1 + 4 * p2 - p3) * w ^ 2
    + (3 * p1 - p0 - 3 * p2 + p3) * w ^ 3) / 2

/-- Modelled from the spec: evaluation of the closed `THREE.CatmullRomCurve3`
built by `CameraPath._updateCurve`, whose source (the three.js library) is
not among this repository's files.  Per the spec, `t` is taken modulo `1.0`
(the curve is closed and wraps from the last control point back to the
first), and the result is the interpolated 3D position at that fractional
position.  The spec allows an equivalent smooth interpolating curve in place
of the centripetal parametrization (whose knot spacing needs square roots),
so uniform Catmull-Rom segments over the wrapped control-point indices are
used here. -/
def curvePointAt (pts : List Vec3) (t : ℚ) : Vec3 :=
  let n := pts.length
  let u := tmod1 t
  let s := (n : ℚ) * u
  let i := (⌊s⌋).toNat
  let w := s - ⌊s⌋
  let q0 := pts.getD ((i + n - 1) % n) Vec3.zero
  let q1 := pts.getD (i % n) Vec3.zero
  let q2 := pts.getD ((i + 1) % n) Vec3.zero
  let q3 := pts.getD ((i + 2) % n) Vec3.zero
  ⟨catmullRom q0.x q1.x q2.x q3.x w,
   catmullRom q0.y q1.y q2.y q3.y w,
   catmullRom q0.z q1.z q2.z q3.z w⟩

/-- State of the `CameraPath` class: the `points` array and the cached
`curve` (`null` until at least two points exist; modelled by the list of
control points the curve was built from). -/
structure CameraPath where
  points : List Vec3
  curve : Option (List Vec3)
deriving DecidableEq, Repr

/-- A freshly constructed `CameraPath`: no points, `curve = null`. -/
def CameraPath.empty : CameraPath := ⟨[], none⟩

/-- Embedding of `_updateCurve`: with fewer than 2 points the curve is
`null`; otherwise a closed curve through all current points is rebuilt. -/
def CameraPath.updateCurve (pts : List Vec3) : Option (List Vec3) :=
  if pts.length < 2 then none else some pts

/-- Embedding of `addPoint(point)`: push the point and rebuild the curve. -/
def CameraPath.addPoint (cp : CameraPath) (p : Vec3) : CameraPath :=
  let pts := cp.points ++ [p]
  ⟨pts, CameraPath.updateCurve pts⟩

/-- Embedding of `getPointAt(t)`: returns `new THREE.Vector3(0, 0, 0)` when
the curve is absent or fewer than 2 points exist, otherwise the curve value
at `t`.  The function is total — it never throws. -/
def CameraPath.getPointAt (cp : CameraPath) (t : ℚ) : Vec3 :=
  match cp.curve with
  | none => Vec3.zero
  | some c => if cp.points.length < 2 then Vec3.zero else curvePointAt c t

/-! ## Dramatic event (supernova), shockwave and frame loop (`src/js/main.js`) -/

/-- The `scene.userData.dramaticEvent` record together with the mutable
visual state of the resources it owns: the supernova mesh's uniform scale,
its shader `time` uniform, and the point light's intensity. -/
structure DramaticEvent where
  startTime : ℚ
  duration : ℚ
  scale : ℚ
  timeUniform : ℚ
  intensity : ℚ
deriving DecidableEq, Repr

/-- One shockwave particle system created by `createShockwave`: spawn time,
duration, per-particle positions and velocities, the shader `time` uniform,
and whether the points object is still attached to the scene.  The static
per-particle color and size buffers are never mutated after creation and are
omitted. -/
structure Shockwave where
  startTime : ℚ
  duration : ℚ
  positions : List Vec3
  velocity : List Vec3
  timeUniform : ℚ
  inScene : Bool
deriving DecidableEq, Repr

/-- Random draws consumed by `createShockwave` for one particle: the unit
direction sampled via spherical coordinates (received here as the resulting
direction vector, since the source feeds the drawn angles through
`Math.sin`/`Math.cos`/`Math.acos`) and the drawn speed `2 + rand * 5`. -/
structure ShockDraw where
  dir : Vec3
  speed : ℚ
deriving DecidableEq, Repr

/-- Embedding of `createShockwave(scene, center, duration)` created at
elapsed time `t` (`startTime: clock.getElapsedTime()`): each particle starts
on a shell of radius 5 around `center` and gets the outward velocity
`dir * speed`; the new points object is added to the scene and to the
update list, and its `time` uniform starts at `0`. -/
def createShockwave (t : ℚ) (center : Vec3) (duration : ℚ) (draws : List ShockDraw) : Shockwave :=
  { startTime := t
  , duration := duration
  , positions := draws.map (fun d =>
      ⟨center.x + 5 * d.dir.x, center.y + 5 * d.dir.y, center.z + 5 * d.dir.z⟩)
  , velocity := draws.map (fun d => ⟨d.dir.x * d.speed, d.dir.y * d.speed, d.dir.z * d.speed⟩)
  , timeUniform := 0
  , inScene := true }

/-- Embedding of the shockwave's `update(elapsedTime)` closure: progress is
`min(runtime / duration, 1.0)`; while `progress < 1.0` every particle moves
by its velocity scaled by the drag factor `(1 - progress * 0.5)`; at
completion the points object is removed from the scene (it stays on the
update list, which matches the source). -/
def shockwaveUpdate (elapsedTime : ℚ) (sw : Shockwave) : Shockwave :=
  let runtime := elapsedTime - sw.startTime
  let progress := min (runtime / sw.duration) 1
  let sw1 := { sw with timeUniform := runtime }
  if progress < 1 then
    { sw1 with positions := List.zipWith (fun q v =>
        ⟨q.x + v.x * (1 - progress * (1/2)),
         q.y + v.y * (1 - progress * (1/2)),
         q.z + v.z * (1 - progress * (1/2))⟩) sw1.positions sw1.velocity }
  else { sw1 with inScene := false }

/-- The scene-level state the animation loop reads and writes: the one-shot
event flag `dramaticEventTriggered`, the optional `dramaticEvent` record,
the list of shockwave particle systems registered in
`scene.userData.updateableObjects`, the mode flags, and `controls.enabled`. -/
structure SceneState where
  dramaticEventTriggered : Bool
  dramaticEvent : Option DramaticEvent
  shockwaves : List Shockwave
  journeyStarted : Bool
  isAutoPilot : Bool
  controlsEnabled : Bool
deriving DecidableEq, Repr

/-- Fixed supernova position `(-150, 40, -120)`. -/
def supernovaPosition : Vec3 := ⟨-150, 40, -120⟩

/-- Embedding of `triggerDramaticEvent()` at elapsed time `t`: returns
unchanged when already triggered; otherwise sets the flag, creates the
supernova (initial scale `(1,1,1)`, point light intensity `1`) with
`startTime = t` and `duration = 25`, and spawns the companion shockwave
burst with `duration = 25` at the supernova's position.  The text
notification and its fade timer belong to the external UI collaborator and
are not part of this state. -/
def triggerDramaticEvent (t : ℚ) (draws : List ShockDraw) (st : SceneState) : SceneState :=
  if st.dramaticEventTriggered then st
  else
    { st with
      dramaticEventTriggered := true
      , dramaticEvent := some
          { startTime := t, duration := 25, scale := 1, timeUniform := 0, intensity := 1 }
      , shockwaves := st.shockwaves ++ [createShockwave t supernovaPosition 25 draws] }

/-- Embedding of the dramatic-event block of `animate()`: when the flag is
set and the event record exists, compute `progress = min(eventElapsed /
duration, 1.0)`, update scale and intensity according to the growth
(`p < 0.3`), peak (`p < 0.7`) or fade-out phase, and on `progress >= 1.0`
remove the supernova mesh and light from the scene, clear the flag and
delete the event record.  `sinT3` is the value `Math.sin(elapsedTime * 3)`
evaluates to on this frame (in particular `|sinT3| ≤ 1`). -/
def dramaticEventFrame (t sinT3 : ℚ) (st : SceneState) : SceneState :=
  if st.dramaticEventTriggered then
    match st.dramaticEvent with
    | none => st
    | some ev =>
      let progress := min ((t - ev.startTime) / ev.duration) 1
      let ev' :=
        if progress < 3/10 then
          { ev with
              scale := 1 + progress * 100
              timeUniform := t
              intensity := progress * 10 }
        else if progress < 7/10 then
          { ev with
              timeUniform := t
              intensity := 3 + sinT3 * (3/2) }
        else
          let fadeOut := 1 - (progress - 7/10) / (3/10)
          { ev with
              scale := 30 * fadeOut
              timeUniform := t
              intensity := fadeOut * 3 }
      if 1 ≤ progress then
        { st with dramaticEventTriggered := false, dramaticEvent := none }
      else
        { st with dramaticEvent := some ev' }
  else st

/-- The frozen camera-mode notion of the spec: the camera is driven by the
spline path exactly when the journey has started and auto-pilot is on
(the `journeyStarted && isAutoPilot` branch of `animate()`). -/
def inAutonomousMode (st : SceneState) : Bool :=
  st.journeyStarted && st.isAutoPilot

/-- Embedding of the scene-level part of one `animate()` tick at elapsed
time `t`: advance every registered shockwave (`updateableObjects` loop,
which runs before the event block), advance the dramatic event, and, in
autonomous mode, run the trigger check: the event fires when the flag is
clear, `elapsedTime > 60`, and the per-frame draw satisfies
`rand < 0.001`. -/
def sceneFrame (t sinT3 rand : ℚ) (draws : List ShockDraw) (st : SceneState) : SceneState :=
  let st1 := { st with shockwaves := st.shockwaves.map (shockwaveUpdate t) }
  let st2 := dramaticEventFrame t sinT3 st1
  if inAutonomousMode st2 then
    if st2.dramaticEventTriggered = false ∧ 60 < t ∧ rand < 1/1000 then
      triggerDramaticEvent t draws st2
    else st2
  else st2

/-- Whole-program state touched by one frame: the shooting-star pool plus
the scene-level state. -/
structure FullState where
  shooting : SSState
  scene : SceneState
deriving DecidableEq, Repr

/-- Embedding of `toggleControlMode()`: no-op before the journey starts;
otherwise flips `isAutoPilot` and sets `controls.enabled = !isAutoPilot`.
The button label and the info panel are external UI. -/
def toggleControlMode (st : FullState) : FullState :=
  if st.scene.journeyStarted = false then st
  else
    { st with scene :=
        { st.scene with
          isAutoPilot := !st.scene.isAutoPilot
          , controlsEnabled := !(!st.scene.isAutoPilot) } }

/-- Embedding of one `animate()` tick: update the shooting stars with the
frame delta, then run the scene-level updates (shockwaves, dramatic event,
trigger check) at the elapsed time.  `now`, `ssRand`, `p`, `eventRand` and
`draws` are the frame's clock reading and random draws. -/
def animateTick (dt t now ssRand : ℚ) (p : SpawnParams) (sinT3 eventRand : ℚ)
    (draws : List ShockDraw) (st : FullState) : FullState :=
  { shooting := shootingStarsFrameUpdate dt now ssRand p st.shooting
  , scene := sceneFrame t sinT3 eventRand draws st.scene }

/-! ## Spec-side envelope and concrete fixtures -/

/-- Triangular alpha envelope exactly as the spec words it: linear ramp
`0 → A` for `p < 0.2`, constant `A` for `0.2 ≤ p < 0.8`, linear ramp
`A → 0` for `0.8 ≤ p < 1`, and `0` past the end of life.  Compared against
the code's `starNewAlpha` in the theorems below. -/
def triangularEnvelope (p A : ℚ) : ℚ :=
  if p < 1/5 then (p / (1/5)) * A
  else if p < 4/5 then A
  else if p < 1 then ((1 - p) / (1/5)) * A
  else 0

/-- Concrete spawn draws used by the witnesses: angles at `0`
(`sin = 0`, `cos = 1`), radius `400`, speed `1`, size `8`, max alpha `0.8`. -/
def demoSpawnParams : SpawnParams := ⟨0, 1, 0, 1, 400, 0, 1, 0, 1, 1, 8, 4/5⟩

/-- Reachable pool state with three concurrently active shooting stars:
three frame updates whose timer and probability draws all admit a spawn. -/
def ssThreeActive : SSState :=
  shootingStarsFrameUpdate 1 12000 0 demoSpawnParams
    (shootingStarsFrameUpdate 1 8000 0 demoSpawnParams
      (shootingStarsFrameUpdate 1 4000 0 demoSpawnParams initSSState))

/-- A star one step away from completion (progress `0.95`, speed `1`). -/
def demoDoneStar : ShootingStar := ⟨0, ⟨0, 0, 0⟩, ⟨1, 1, 1⟩, 19/20, 1, 8, 4/5⟩

/-- Pool state holding `demoDoneStar` in slot 0. -/
def demoDoneState : SSState :=
  { initSSState with
    activeShootingStars := [demoDoneStar]
    , alphas := List.replicate ssCount (4/5) }

/-- A star in mid-flight (progress `0.5`, speed `1`). -/
def demoMidStar : ShootingStar := ⟨0, ⟨0, 0, 0⟩, ⟨1, 1, 1⟩, 1/2, 1, 8, 4/5⟩

/-- Pool state holding `demoMidStar` in slot 0. -/
def demoMidState : SSState :=
  { initSSState with
    activeShootingStars := [demoMidStar]
    , alphas := List.replicate ssCount (4/5) }

/-- Camera path through three concrete control points. -/
def demoCameraPath : CameraPath :=
  ((CameraPath.empty.addPoint ⟨0, 0, 0⟩).addPoint ⟨1, 2, 3⟩).addPoint ⟨4, 5, 6⟩

/-- Degenerate camera path holding a single control point. -/
def demoSinglePointPath : CameraPath := CameraPath.empty.addPoint ⟨1, 2, 3⟩

/-- Scene state of a fresh session in autonomous mode: journey started,
auto-pilot on, event dormant. -/
def demoDormantScene : SceneState := ⟨false, none, [], true, true, false⟩

/-- Frame 1 of the retrigger trace: elapsed `61 s`, trigger draw `0`
(success). -/
def eventTrace1 : SceneState := sceneFrame 61 0 0 [] demoDormantScene

/-- Frame 2 of the retrigger trace: elapsed `87 s` (the event's 25 s have
passed), trigger draw `1/2` (failure). -/
def eventTrace2 : SceneState := sceneFrame 87 0 (1/2) [] eventTrace1

/-- Frame 3 of the retrigger trace: elapsed `90 s`, trigger draw `0`
(success again). -/
def eventTrace3 : SceneState := sceneFrame 90 0 0 [] eventTrace2

/-- A just-created dramatic event record starting at elapsed time `0`. -/
def demoEvent : DramaticEvent := ⟨0, 25, 1, 0, 1⟩

/-- Scene state with the dramatic event in flight. -/
def demoActiveScene : SceneState := ⟨true, some demoEvent, [], true, true, false⟩

/-! ## Shared lemmas -/

theorem getD_set_self {α : Type} (l : List α) (i : ℕ) (a d : α) (h : i < l.length) :
    (l.set i a).getD i d = a := by
  simp [List.getD_eq_getElem?_getD, List.getElem?_set_eq_of_lt a h]

theorem getD_set_ne {α : Type} (l : List α) (i j : ℕ) (a d : α) (h : j ≠ i) :
    (l.set j a).getD i d = l.getD i d := by
  simp [List.getD_eq_getElem?_getD, List.getElem?_set_ne h]

/-- The surviving active list after one update pass: every star advanced and
exactly those with updated progress `< 1` kept, in order. -/
theorem updateLoop_active (dt : ℚ) (l : List ShootingStar) (pos : List Vec3) (a : List ℚ) :
    (updateLoop dt l pos a).1
      = (l.map (stepStar dt)).filter (fun s => decide (s.progress < 1)) := by
  induction l with
  | nil => rfl
  | cons s rest ih =>
    simp only [updateLoop, List.map_cons, List.filter_cons]
    by_cases h : 1 ≤ (stepStar dt s).progress
    · rw [if_pos h]
      have hd : decide ((stepStar dt s).progress < 1) = false := by
        simpa using not_lt.mpr h
      rw [hd]
      simpa using ih
    · rw [if_neg h]
      have hd : decide ((stepStar dt s).progress < 1) = true := by
        simpa using not_le.mp h
      rw [hd]
      simpa using ih

theorem updateLoop_alphas_length (dt : ℚ) (l : List ShootingStar) (pos : List Vec3)
    (a : List ℚ) : (updateLoop dt l pos a).2.2.length = a.length := by
  induction l with
  | nil => rfl
  | cons s rest ih =>
    simp only [updateLoop]
    by_cases h : 1 ≤ (stepStar dt s).progress
    · rw [if_pos h]
      simpa [List.length_set] using ih
    · rw [if_neg h]
      simpa [List.length_set] using ih

/-- Final alpha of a star's slot after one update pass, assuming the active
instances occupy pairwise distinct slots. -/
theorem updateLoop_alpha (dt : ℚ) (l : List ShootingStar) (pos : List Vec3) (a : List ℚ)
    (hnd : (l.map fun x => x.index).Nodup) (s : ShootingStar) (hs : s ∈ l)
    (hlen : s.index < a.length) :
    (updateLoop dt l pos a).2.2.getD s.index 0
      = if 1 ≤ (stepStar dt s).progress then 0 else starNewAlpha (stepStar dt s) := by
  induction l with
  | nil => cases hs
  | cons s0 rest ih =>
    rw [List.map_cons, List.nodup_cons] at hnd
    obtain ⟨hnotin, hnd'⟩ := hnd
    rcases List.mem_cons.mp hs with rfl | hmem
    · have hlen' : s.index < (updateLoop dt rest pos a).2.2.length := by
        rw [updateLoop_alphas_length]; exact hlen
      simp only [updateLoop]
      by_cases h : 1 ≤ (stepStar dt s).progress
      · rw [if_pos h, if_pos h]
        exact getD_set_self _ _ _ _ (by simpa [List.length_set] using hlen')
      · rw [if_neg h, if_neg h]
        exact getD_set_self _ _ _ _ hlen'
    · have hne : (stepStar dt s0).index ≠ s.index := by
        intro he
        exact hnotin (he ▸ List.mem_map_of_mem (fun x => x.index) hmem)
      simp only [updateLoop]
      by_cases h : 1 ≤ (stepStar dt s0).progress
      · rw [if_pos h, getD_set_ne _ _ _ _ _ hne, getD_set_ne _ _ _ _ _ hne]
        exact ih hnd' hmem
      · rw [if_neg h, getD_set_ne _ _ _ _ _ hne]
        exact ih hnd' hmem

theorem createNewShootingStar_length_le (p : SpawnParams) (st : SSState)
    (h : st.activeShootingStars.length ≤ ssActiveMax) :
    (createNewShootingStar p st).activeShootingStars.length ≤ ssActiveMax := by
  unfold createNewShootingStar
  split
  · exact h
  · split
    · exact h
    · next hcap _ _ =>
      simp only [List.length_append, List.length_cons, List.length_nil]
      omega

theorem updateShootingStars_length_le (dt : ℚ) (st : SSState) :
    (updateShootingStars dt st).activeShootingStars.length
      ≤ st.activeShootingStars.length := by
  show (updateLoop dt st.activeShootingStars st.positions st.alphas).1.length ≤ _
  rw [updateLoop_active]
  exact le_trans (List.length_filter_le _ _) (by simp)

theorem shootingStarsFrameUpdate_length_le (dt now rand : ℚ) (p : SpawnParams)
    (st : SSState) (h : st.activeShootingStars.length ≤ ssActiveMax) :
    (shootingStarsFrameUpdate dt now rand p st).activeShootingStars.length ≤ ssActiveMax := by
  have h1 : (updateShootingStars dt st).activeShootingStars.length ≤ ssActiveMax :=
    le_trans (updateShootingStars_length_le dt st) h
  by_cases ht : 3000 < now - (updateShootingStars dt st).lastCheck
  · by_cases hrd : rand < 2/5
    · simp only [shootingStarsFrameUpdate, if_pos ht, if_pos hrd]
      exact createNewShootingStar_length_le p _ h1
    · simp only [shootingStarsFrameUpdate, if_pos ht, if_neg hrd]
      exact h1
  · simp only [shootingStarsFrameUpdate, if_neg ht]
    exact h1

theorem createNewShootingStar_alphas_length (p : SpawnParams) (st : SSState) :
    (createNewShootingStar p st).alphas.length = st.alphas.length := by
  unfold createNewShootingStar
  split
  · rfl
  · split
    · rfl
    · simp [List.length_set]

theorem shootingStarsFrameUpdate_alphas_length (dt now rand : ℚ) (p : SpawnParams)
    (st : SSState) :
    (shootingStarsFrameUpdate dt now rand p st).alphas.length = st.alphas.length := by
  have h1 : (updateShootingStars dt st).alphas.length = st.alphas.length :=
    updateLoop_alphas_length dt st.activeShootingStars st.positions st.alphas
  by_cases ht : 3000 < now - (updateShootingStars dt st).lastCheck
  · by_cases hrd : rand < 2/5
    · simp only [shootingStarsFrameUpdate, if_pos ht, if_pos hrd]
      rw [createNewShootingStar_alphas_length]
      exact h1
    · simp only [shootingStarsFrameUpdate, if_pos ht, if_neg hrd]
      exact h1
  · simp only [shootingStarsFrameUpdate, if_neg ht]
    exact h1

/-- Every reachable pool state keeps its 20-entry alpha buffer. -/
theorem reachable_alphas_length (st : SSState) (hr : SSReachable st) :
    st.alphas.length = ssCount := by
  induction hr with
  | init => simp [initSSState]
  | step dt now rand p h ih => rw [shootingStarsFrameUpdate_alphas_length]; exact ih

theorem findFreeSlot_lt (a : List ℚ) (i : ℕ) (h : findFreeSlot a = some i) : i < ssCount := by
  have := List.mem_of_find?_eq_some h
  simpa using this

theorem findFreeSlot_free (a : List ℚ) (i : ℕ) (h : findFreeSlot a = some i) :
    a.getD i 0 ≤ 0 := by
  have := List.find?_some h
  simpa using this

/-! ## Claim C4: pool capacity invariant and spawn rejection -/

/-- C4.  In every reachable state the number of concurrently active
shooting-star instances is at most `activeMax = 3` (of the 20 slots), and a
spawn request made while the cap is reached is a pure no-op: it returns the
state unchanged, so no 4th instance appears, nothing blocks, and no error is
signalled (the embedded operation is total). -/
theorem c4_pool_capacity (st : SSState) (hr : SSReachable st) :
    st.activeShootingStars.length ≤ ssActiveMax
    ∧ ∀ p : SpawnParams, ssActiveMax ≤ st.activeShootingStars.length →
        createNewShootingStar p st = st := by
  constructor
  · induction hr with
    | init => simp [initSSState]
    | step dt now rand p h ih => exact shootingStarsFrameUpdate_length_le dt now rand p _ ih
  · intro p h
    unfold createNewShootingStar
    rw [if_pos h]

/-! ## Claim C3: triangular alpha envelope -/

/-- C3.  The per-frame update writes to an active star's slot exactly the
triangular alpha envelope of its (advanced) progress: a linear ramp `0 → A`
for `p < 0.2`, the constant `A` for `0.2 ≤ p < 0.8`, a linear ramp `A → 0`
for `0.8 ≤ p < 1`; the code's `newAlpha` computation agrees with that
envelope everywhere, the envelope takes the values `0, A, A, 0` at
`p = 0, 0.2, 0.8, 1`, and it is monotone within each segment. -/
theorem c3_alpha_envelope :
    (∀ (dt : ℚ) (st : SSState) (s : ShootingStar),
        (st.activeShootingStars.map fun x => x.index).Nodup →
        s ∈ st.activeShootingStars →
        s.index < st.alphas.length →
        (stepStar dt s).progress < 1 →
        (updateShootingStars dt st).alphas.getD s.index 0
          = triangularEnvelope (stepStar dt s).progress s.maxAlpha)
    ∧ (∀ s : ShootingStar, starNewAlpha s = triangularEnvelope s.progress s.maxAlpha)
    ∧ (∀ A : ℚ, triangularEnvelope 0 A = 0 ∧ triangularEnvelope (1/5) A = A
        ∧ triangularEnvelope (4/5) A = A ∧ triangularEnvelope 1 A = 0)
    ∧ (∀ A q1 q2 : ℚ, 0 ≤ A → q1 ≤ q2 → q2 < 1/5 →
        triangularEnvelope q1 A ≤ triangularEnvelope q2 A)
    ∧ (∀ A q1 q2 : ℚ, 1/5 ≤ q1 → q1 ≤ q2 → q2 < 4/5 →
        triangularEnvelope q1 A = triangularEnvelope q2 A)
    ∧ (∀ A q1 q2 : ℚ, 0 ≤ A → 4/5 ≤ q1 → q1 ≤ q2 → q2 < 1 →
        triangularEnvelope q2 A ≤ triangularEnvelope q1 A) := by
  have hcode : ∀ s : ShootingStar, starNewAlpha s = triangularEnvelope s.progress s.maxAlpha := by
    intro s
    unfold starNewAlpha triangularEnvelope mapLinear
    split_ifs <;> ring
  refine ⟨?_, hcode, ?_, ?_, ?_, ?_⟩
  · intro dt st s hnd hs hlen hlt
    have h := updateLoop_alpha dt st.activeShootingStars st.positions st.alphas hnd s hs hlen
    rw [if_neg (not_le.mpr hlt)] at h
    rw [show (updateShootingStars dt st).alphas
          = (updateLoop dt st.activeShootingStars st.positions st.alphas).2.2 from rfl, h]
    exact hcode (stepStar dt s)
  · intro A
    refine ⟨?_, ?_, ?_, ?_⟩ <;> · unfold triangularEnvelope; norm_num
  · intro A q1 q2 hA h12 h2
    have h1 : q1 < 1/5 := lt_of_le_of_lt h12 h2
    unfold triangularEnvelope
    rw [if_pos h1, if_pos h2]
    have e1 : q1 / (1/5) * A = 5 * (q1 * A) := by ring
    have e2 : q2 / (1/5) * A = 5 * (q2 * A) := by ring
    rw [e1, e2]
    have := mul_le_mul_of_nonneg_right h12 hA
    linarith
  · intro A q1 q2 h1 h12 h2
    have h1' : ¬ q1 < 1/5 := not_lt.mpr h1
    have h2' : ¬ q2 < 1/5 := not_lt.mpr (le_trans h1 h12)
    have h1'' : q1 < 4/5 := lt_of_le_of_lt h12 h2
    unfold triangularEnvelope
    rw [if_neg h1', if_neg h2', if_pos h1'', if_pos h2]
  · intro A q1 q2 hA h1 h12 h2
    have h1a : ¬ q1 < 1/5 := by intro h; linarith
    have h2a : ¬ q2 < 1/5 := by intro h; linarith
    have h1b : ¬ q1 < 4/5 := not_lt.mpr h1
    have h2b : ¬ q2 < 4/5 := not_lt.mpr (le_trans h1 h12)
    have h1c : q1 < 1 := lt_of_le_of_lt h12 h2
    unfold triangularEnvelope
    rw [if_neg h1a, if_neg h2a, if_neg h1b, if_neg h2b, if_pos h1c, if_pos h2]
    have e1 : (1 - q1) / (1/5) * A = 5 * ((1 - q1) * A) := by ring
    have e2 : (1 - q2) / (1/5) * A = 5 * ((1 - q2) * A) := by ring
    rw [e1, e2]
    have := mul_le_mul_of_nonneg_right (show (1 : ℚ) - q2 ≤ 1 - q1 by linarith) hA
    linarith

/-! ## Claim C7: completion removes the star and frees its slot -/

/-- C7.  On the first update step where an active star's progress reaches or
exceeds `1.0`, the instance is removed from the active list (no surviving
instance occupies its slot) and its slot's alpha is forced to `0`, so the
completed star is no longer rendered and `createNewShootingStar`'s slot
search (`alpha ≤ 0`) can reuse the slot. -/
theorem c7_completion_cleanup (dt : ℚ) (st : SSState) (s : ShootingStar)
    (hnd : (st.activeShootingStars.map fun x => x.index).Nodup)
    (hs : s ∈ st.activeShootingStars)
    (hdone : 1 ≤ (stepStar dt s).progress)
    (hlen : s.index < st.alphas.length) :
    (∀ s' ∈ (updateShootingStars dt st).activeShootingStars, s'.index ≠ s.index)
    ∧ (updateShootingStars dt st).alphas.getD s.index 0 = 0 := by
  constructor
  · intro s' hs' he
    rw [show (updateShootingStars dt st).activeShootingStars
          = (updateLoop dt st.activeShootingStars st.positions st.alphas).1 from rfl,
        updateLoop_active] at hs'
    obtain ⟨hmem, hlt⟩ := List.mem_filter.mp hs'
    obtain ⟨s0, hs0, rfl⟩ := List.mem_map.mp hmem
    have hidx : s0.index = s.index := he
    have : s0 = s := List.inj_on_of_nodup_map hnd hs0 hs hidx
    subst this
    have hp : (stepStar dt s0).progress < 1 := by simpa using hlt
    exact absurd hdone (not_le.mpr hp)
  · have h := updateLoop_alpha dt st.activeShootingStars st.positions st.alphas hnd s hs hlen
    rw [if_pos hdone] at h
    exact h

/-! ## Claim C10: a fresh spawn starts faintly visible, not at zero -/

/-- C10.  When a spawn attempt succeeds (cap not reached and a free slot
found), the new instance is appended with `progress = 0` while its slot's
alpha is set to `0.1` — faint but nonzero; the alpha only starts following
the triangular envelope at the next update (claim C3). -/
theorem c10_spawn_alpha_faint (p : SpawnParams) (st : SSState) (slot : ℕ)
    (hr : SSReachable st)
    (hcap : st.activeShootingStars.length < ssActiveMax)
    (hslot : findFreeSlot st.alphas = some slot) :
    (createNewShootingStar p st).alphas.getD slot 0 = 1/10
    ∧ (1 : ℚ)/10 ≠ 0
    ∧ (createNewShootingStar p st).activeShootingStars.getLast?
        = some
          { index := slot
          , startPosition := ⟨p.radius * p.sinPhi * p.cosTheta, p.radius * p.cosPhi,
              p.radius * p.sinPhi * p.sinTheta⟩
          , endPosition := ⟨p.radius * p.sinEndPhi * p.cosEndTheta, p.radius * p.cosEndPhi,
              p.radius * p.sinEndPhi * p.sinEndTheta⟩
          , progress := 0
          , speed := p.speed
          , size := p.size
          , maxAlpha := p.maxAlpha } := by
  have hlt : slot < st.alphas.length := by
    rw [reachable_alphas_length st hr]
    exact findFreeSlot_lt st.alphas slot hslot
  have hform : createNewShootingStar p st
      = { st with
          positions := st.positions.set slot
            ⟨p.radius * p.sinPhi * p.cosTheta, p.radius * p.cosPhi,
              p.radius * p.sinPhi * p.sinTheta⟩
          , sizes := st.sizes.set slot p.size
          , alphas := st.alphas.set slot (1/10)
          , activeShootingStars := st.activeShootingStars ++
              [{ index := slot
               , startPosition := ⟨p.radius * p.sinPhi * p.cosTheta, p.radius * p.cosPhi,
                   p.radius * p.sinPhi * p.sinTheta⟩
               , endPosition := ⟨p.radius * p.sinEndPhi * p.cosEndTheta, p.radius * p.cosEndPhi,
                   p.radius * p.sinEndPhi * p.sinEndTheta⟩
               , progress := 0
               , speed := p.speed
               , size := p.size
               , maxAlpha := p.maxAlpha }] } := by
    unfold createNewShootingStar
    rw [if_neg (not_le.mpr hcap), hslot]
  rw [hform]
  refine ⟨getD_set_self _ _ _ _ hlt, by norm_num, ?_⟩
  exact List.getLast?_concat _

/-! ## Claims C2 and C8: camera path queries -/

theorem curvePointAt_tmod1 (c : List Vec3) (t : ℚ) :
    curvePointAt c (tmod1 t) = curvePointAt c t := by
  unfold curvePointAt
  simp only [tmod1, Int.fract_fract]

/-- C2.  For every parameter `t` (negative and beyond `1` included), once the
path holds at least 2 control points, `getPointAt t` coincides with
`getPointAt` of `t` taken modulo `1.0`: the query wraps around the closed
curve.  The curve evaluation itself is modelled from the spec, the three.js
curve class not being part of this repository (see `curvePointAt`). -/
theorem c2_pointAt_wraps (cp : CameraPath) (t : ℚ)
    (h : 2 ≤ cp.points.length) :
    cp.getPointAt t = cp.getPointAt (tmod1 t) := by
  unfold CameraPath.getPointAt
  cases hc : cp.curve with
  | none => rfl
  | some c =>
    dsimp only
    rw [if_neg (not_lt.mpr h), if_neg (not_lt.mpr h)]
    exact (curvePointAt_tmod1 c t).symm

/-- C8.  With fewer than 2 control points added, `getPointAt` returns the
default origin `(0, 0, 0)` for every `t`; the embedded function is total, so
no failure mode exists. -/
theorem c8_degenerate_path_default (cp : CameraPath) (t : ℚ)
    (h : cp.points.length < 2) :
    cp.getPointAt t = Vec3.zero := by
  unfold CameraPath.getPointAt
  cases hc : cp.curve with
  | none => rfl
  | some c =>
    dsimp only
    rw [if_pos h]

/-! ## Scene-frame lemmas -/

theorem dramaticEventFrame_not_triggered (t sinT3 : ℚ) (st : SceneState)
    (h : st.dramaticEventTriggered = false) :
    dramaticEventFrame t sinT3 st = st := by
  unfold dramaticEventFrame
  simp [h]

theorem dramaticEventFrame_fields (t sinT3 : ℚ) (st : SceneState) :
    (dramaticEventFrame t sinT3 st).journeyStarted = st.journeyStarted
    ∧ (dramaticEventFrame t sinT3 st).isAutoPilot = st.isAutoPilot
    ∧ (dramaticEventFrame t sinT3 st).controlsEnabled = st.controlsEnabled
    ∧ (dramaticEventFrame t sinT3 st).shockwaves = st.shockwaves := by
  rcases st with ⟨trig, ev, sw, js, ap, ce⟩
  cases trig <;> cases ev <;> simp [dramaticEventFrame] <;> split_ifs <;> simp

/-! ## Claim C5: the Dormant-to-Triggered guard -/

/-- C5.  Starting a tick with the event dormant (`dramaticEventTriggered =
false`), the tick ends with the flag set if and only if the camera is in
autonomous mode (journey started with auto-pilot on), the elapsed session
time strictly exceeds `60` seconds, and the per-frame Bernoulli draw
satisfies `rand < 0.001`; in particular, at or before `60` seconds the event
never triggers, whatever the draw. -/
theorem c5_trigger_guard (t sinT3 rand : ℚ) (draws : List ShockDraw) (st : SceneState)
    (hd : st.dramaticEventTriggered = false) :
    ((sceneFrame t sinT3 rand draws st).dramaticEventTriggered = true ↔
      (inAutonomousMode st = true ∧ 60 < t ∧ rand < 1/1000))
    ∧ (t ≤ 60 → (sceneFrame t sinT3 rand draws st).dramaticEventTriggered = false) := by
  rcases st with ⟨trig, ev, sw, js, ap, ce⟩
  simp only at hd
  subst hd
  have hmain : ((sceneFrame t sinT3 rand draws ⟨false, ev, sw, js, ap, ce⟩).dramaticEventTriggered
        = true ↔ ((js && ap) = true ∧ 60 < t ∧ rand < 1/1000)) := by
    simp only [sceneFrame, inAutonomousMode, dramaticEventFrame, triggerDramaticEvent]
    cases js <;> cases ap <;> simp <;> split_ifs with h <;> simp_all
  refine ⟨hmain, fun ht => ?_⟩
  cases hres : (sceneFrame t sinT3 rand draws ⟨false, ev, sw, js, ap, ce⟩).dramaticEventTriggered
  · rfl
  · obtain ⟨-, h60, -⟩ := hmain.mp hres
    linarith

/-! ## Claim C6: supernova phase function -/

/-- C6.  While the event is active with normalized progress
`p = min(elapsed / 25, 1)` (the duration is 25 s): in the growth phase
(`p < 0.3`) the scale becomes `1 + 100 p` and the intensity `10 p`; in the
peak phase (`0.3 ≤ p < 0.7`) the scale is held at its previous value and the
intensity is `3 + 1.5 · sin(3t)`, which stays within `1.5` of the midpoint
`3`; in the fade-out (`0.7 ≤ p < 1`) scale and intensity follow the linear
fade `fadeOut = 1 - (p - 0.7)/0.3` (monotonically decreasing, reaching `0`
at `p = 1`); and at `p ≥ 1` the supernova mesh and light are removed (the
event record is deleted) and the controller returns to Dormant. -/
theorem c6_event_phases (t sinT3 : ℚ) (st : SceneState) (ev : DramaticEvent) (p : ℚ)
    (htr : st.dramaticEventTriggered = true)
    (hev : st.dramaticEvent = some ev)
    (hdur : ev.duration = 25)
    (hp : p = min ((t - ev.startTime) / 25) 1) :
    (p < 3/10 →
      (dramaticEventFrame t sinT3 st).dramaticEvent
          = some { ev with scale := 1 + 100 * p, timeUniform := t, intensity := 10 * p }
        ∧ (dramaticEventFrame t sinT3 st).dramaticEventTriggered = true)
    ∧ (3/10 ≤ p → p < 7/10 →
      (dramaticEventFrame t sinT3 st).dramaticEvent
          = some { ev with timeUniform := t, intensity := 3 + sinT3 * (3/2) }
        ∧ (|sinT3| ≤ 1 → |(3 + sinT3 * (3/2)) - 3| ≤ 3/2)
        ∧ (dramaticEventFrame t sinT3 st).dramaticEventTriggered = true)
    ∧ (7/10 ≤ p → p < 1 →
      (dramaticEventFrame t sinT3 st).dramaticEvent
          = some { ev with
                     scale := 30 * (1 - (p - 7/10) / (3/10))
                     timeUniform := t
                     intensity := (1 - (p - 7/10) / (3/10)) * 3 }
        ∧ (dramaticEventFrame t sinT3 st).dramaticEventTriggered = true)
    ∧ (∀ p1 p2 : ℚ, 7/10 ≤ p1 → p1 ≤ p2 → p2 ≤ 1 →
        30 * (1 - (p2 - 7/10) / (3/10)) ≤ 30 * (1 - (p1 - 7/10) / (3/10))
        ∧ (1 - (p2 - 7/10) / (3/10)) * 3 ≤ (1 - (p1 - 7/10) / (3/10)) * 3)
    ∧ (30 * (1 - ((1 : ℚ) - 7/10) / (3/10)) = 0
        ∧ (1 - ((1 : ℚ) - 7/10) / (3/10)) * 3 = 0)
    ∧ (1 ≤ p →
      (dramaticEventFrame t sinT3 st).dramaticEvent = none
        ∧ (dramaticEventFrame t sinT3 st).dramaticEventTriggered = false) := by
  have hframe : dramaticEventFrame t sinT3 st
      = (let progress := min ((t - ev.startTime) / ev.duration) 1
         let ev' :=
           if progress < 3/10 then
             { ev with
                 scale := 1 + progress * 100
                 timeUniform := t
                 intensity := progress * 10 }
           else if progress < 7/10 then
             { ev with timeUniform := t, intensity := 3 + sinT3 * (3/2) }
           else
             let fadeOut := 1 - (progress - 7/10) / (3/10)
             { ev with
                 scale := 30 * fadeOut
                 timeUniform := t
                 intensity := fadeOut * 3 }
         if 1 ≤ progress then
           { st with dramaticEventTriggered := false, dramaticEvent := none }
         else
           { st with dramaticEvent := some ev' }) := by
    unfold dramaticEventFrame
    rw [hev]
    simp [htr]
  have hp' : p = min ((t - ev.startTime) / ev.duration) 1 := by rw [hdur]; exact hp
  rw [← hp'] at hframe
  refine ⟨?_, ?_, ?_, ?_, by constructor <;> norm_num, ?_⟩
  · intro h3
    have h1 : ¬ 1 ≤ p := by intro h; linarith
    rw [hframe]
    dsimp only
    rw [if_pos h3, if_neg h1]
    refine ⟨?_, htr⟩
    simp only [show (1 : ℚ) + p * 100 = 1 + 100 * p from by ring,
               show p * 10 = 10 * p from by ring]
  · intro h3 h7
    have h1 : ¬ 1 ≤ p := by intro h; linarith
    have h3' : ¬ p < 3/10 := not_lt.mpr h3
    rw [hframe]
    dsimp only
    rw [if_neg h3', if_pos h7, if_neg h1]
    refine ⟨rfl, fun hb => ?_, htr⟩
    rw [abs_le] at hb ⊢
    constructor <;> nlinarith [hb.1, hb.2]
  · intro h7 h1lt
    have h1 : ¬ 1 ≤ p := not_le.mpr h1lt
    have h3' : ¬ p < 3/10 := by intro h; linarith
    have h7' : ¬ p < 7/10 := not_lt.mpr h7
    rw [hframe]
    dsimp only
    rw [if_neg h3', if_neg h7', if_neg h1]
    exact ⟨rfl, htr⟩
  · intro p1 p2 ha hb hc
    constructor
    · rw [show 30 * (1 - (p2 - 7/10) / (3/10)) = 100 * (1 - p2) from by ring,
          show 30 * (1 - (p1 - 7/10) / (3/10)) = 100 * (1 - p1) from by ring]
      linarith
    · rw [show (1 - (p2 - 7/10) / (3/10)) * 3 = 10 * (1 - p2) from by ring,
          show (1 - (p1 - 7/10) / (3/10)) * 3 = 10 * (1 - p1) from by ring]
      linarith
  · intro h1
    rw [hframe]
    dsimp only
    rw [if_pos h1]
    exact ⟨rfl, rfl⟩

/-! ## Claim C9: mode toggling leaves animations alone -/

theorem take_map_append {γ : Type} (l : List γ) (f : γ → γ) (rest : List γ) :
    ((l.map f) ++ rest).take l.length = l.map f := by
  rw [show l.length = (l.map f).length from (List.length_map l f).symm]
  exact List.take_left _ _

theorem take_map_self {γ : Type} (l : List γ) (f : γ → γ) :
    (l.map f).take l.length = l.map f := by
  rw [show l.length = (l.map f).length from (List.length_map l f).symm]
  exact List.take_length _

theorem dramaticEventFrame_setAuto (t sinT3 : ℚ) (s : SceneState) (b : Bool) :
    dramaticEventFrame t sinT3 { s with isAutoPilot := b }
      = { dramaticEventFrame t sinT3 s with isAutoPilot := b } := by
  rcases s with ⟨trig, ev, sw, js, ap, ce⟩
  cases trig <;> cases ev <;> simp [dramaticEventFrame] <;> split_ifs <;> rfl

theorem sceneFrame_shockwaves_take (t sinT3 rand : ℚ) (draws : List ShockDraw)
    (s : SceneState) :
    (sceneFrame t sinT3 rand draws s).shockwaves.take s.shockwaves.length
      = s.shockwaves.map (shockwaveUpdate t) := by
  unfold sceneFrame
  dsimp only
  have hsw2 : (dramaticEventFrame t sinT3
        { s with shockwaves := s.shockwaves.map (shockwaveUpdate t) }).shockwaves
      = s.shockwaves.map (shockwaveUpdate t) :=
    (dramaticEventFrame_fields t sinT3 _).2.2.2
  split_ifs with h1 h2
  · unfold triggerDramaticEvent
    split_ifs with h3
    · rw [hsw2]
      exact take_map_self _ _
    · dsimp only
      rw [hsw2]
      exact take_map_append _ _ _
  · rw [hsw2]
    exact take_map_self _ _
  · rw [hsw2]
    exact take_map_self _ _

/-- C9.  Toggling between autonomous and manual mode changes only the mode
flag and `controls.enabled`: the shooting-star pool, the dramatic-event flag
and record, the shockwave systems and the journey flag are untouched at the
instant of the switch.  Moreover each frame advances those animations
independently of the mode: the shooting-star update is applied
unconditionally, the in-flight shockwave systems evolve by the same
per-frame map in either mode, and the dramatic-event advancement commutes
with flipping the mode flag — so in-flight animations run to completion in
either mode. -/
theorem c9_toggle_preserves_animations :
    (∀ st : FullState,
        (toggleControlMode st).shooting = st.shooting
        ∧ (toggleControlMode st).scene.dramaticEventTriggered
            = st.scene.dramaticEventTriggered
        ∧ (toggleControlMode st).scene.dramaticEvent = st.scene.dramaticEvent
        ∧ (toggleControlMode st).scene.shockwaves = st.scene.shockwaves
        ∧ (toggleControlMode st).scene.journeyStarted = st.scene.journeyStarted)
    ∧ (∀ (dt t now ssRand : ℚ) (p : SpawnParams) (sinT3 eventRand : ℚ)
          (draws : List ShockDraw) (st : FullState),
        (animateTick dt t now ssRand p sinT3 eventRand draws st).shooting
          = shootingStarsFrameUpdate dt now ssRand p st.shooting)
    ∧ (∀ (t sinT3 rand : ℚ) (draws : List ShockDraw) (s : SceneState),
        (sceneFrame t sinT3 rand draws s).shockwaves.take s.shockwaves.length
          = s.shockwaves.map (shockwaveUpdate t))
    ∧ (∀ (t sinT3 : ℚ) (s : SceneState) (b : Bool),
        dramaticEventFrame t sinT3 { s with isAutoPilot := b }
          = { dramaticEventFrame t sinT3 s with isAutoPilot := b }) := by
  refine ⟨?_, fun _ _ _ _ _ _ _ _ _ => rfl, sceneFrame_shockwaves_take,
    dramaticEventFrame_setAuto⟩
  intro st
  unfold toggleControlMode
  split_ifs <;> exact ⟨rfl, rfl, rfl, rfl, rfl⟩

/-! ## Claim C1 and concrete witnesses

Rational arithmetic is evaluated by `decide` below; the four `Rat`
operations that Batteries marks irreducible are made semireducible locally
so the evaluation can proceed. -/

section

attribute [local semireducible] Rat.mul Rat.add Rat.inv Rat.sub

/-- C1 (refuted by the code).  A session trace in autonomous mode: the
supernova triggers at `t = 61 s` (draw `0 < 0.001`), the event completes and
tears down at `t = 87 s` (progress reaches `1`, the completion handler
clears `dramaticEventTriggered`), and at `t = 90 s` a new draw `0 < 0.001`
triggers the event a second time in the same session — the
Dormant-to-Triggered transition is re-enabled by completion, contradicting
the one-shot behavior stated by the spec and by the source's own comment
at the trigger site (once per journey). -/
theorem c1_supernova_retriggers :
    eventTrace1.dramaticEventTriggered = true
    ∧ eventTrace1.dramaticEvent = some ⟨61, 25, 1, 0, 1⟩
    ∧ eventTrace2.dramaticEventTriggered = false
    ∧ eventTrace2.dramaticEvent = none
    ∧ eventTrace3.dramaticEventTriggered = true
    ∧ eventTrace3.dramaticEvent = some ⟨90, 25, 1, 0, 1⟩ := by
  decide

/-- Witness for C4: a concrete reachable state with three active stars where
a further spawn request returns the state unchanged. -/
theorem c4_pool_capacity_witness :
    ssThreeActive.activeShootingStars.length = 3
    ∧ ssThreeActive.activeShootingStars.length ≤ ssActiveMax
    ∧ createNewShootingStar demoSpawnParams ssThreeActive = ssThreeActive := by
  have hr : SSReachable ssThreeActive :=
    SSReachable.step 1 12000 0 demoSpawnParams
      (SSReachable.step 1 8000 0 demoSpawnParams
        (SSReachable.step 1 4000 0 demoSpawnParams SSReachable.init))
  have h := c4_pool_capacity ssThreeActive hr
  exact ⟨by decide, h.1, h.2 demoSpawnParams (by decide)⟩

/-- Witness for C3: the mid-flight demo star's slot reads back the envelope
value after one update, and a concrete fade-in monotonicity instance. -/
theorem c3_alpha_envelope_witness :
    (updateShootingStars 1 demoMidState).alphas.getD 0 0
        = triangularEnvelope (stepStar 1 demoMidStar).progress demoMidStar.maxAlpha
    ∧ triangularEnvelope (1/10) (4/5) ≤ triangularEnvelope (3/20) (4/5) := by
  refine ⟨c3_alpha_envelope.1 1 demoMidState demoMidStar (by decide) (by decide)
      (by decide) (by decide), ?_⟩
  exact c3_alpha_envelope.2.2.2.1 (4/5) (1/10) (3/20) (by norm_num) (by norm_num)
    (by norm_num)

/-- Witness for C7: the almost-finished demo star crosses `progress = 1` in
one step and its slot's alpha reads back `0`. -/
theorem c7_completion_cleanup_witness :
    (updateShootingStars 1 demoDoneState).alphas.getD 0 0 = 0 :=
  (c7_completion_cleanup 1 demoDoneState demoDoneStar (by decide) (by decide)
    (by decide) (by decide)).2

/-- Witness for C10: spawning into the fresh pool puts `0.1` in slot 0. -/
theorem c10_spawn_alpha_faint_witness :
    (createNewShootingStar demoSpawnParams initSSState).alphas.getD 0 0 = 1/10 :=
  (c10_spawn_alpha_faint demoSpawnParams initSSState 0 SSReachable.init (by decide)
    (by decide)).1

/-- Witness for C2: on the three-point demo path the query at `t = 3.5`
equals the query at its fractional part. -/
theorem c2_pointAt_wraps_witness :
    2 ≤ demoCameraPath.points.length
    ∧ demoCameraPath.getPointAt (7/2) = demoCameraPath.getPointAt (tmod1 (7/2)) :=
  ⟨by decide, c2_pointAt_wraps demoCameraPath (7/2) (by decide)⟩

/-- Witness for C8: a single-point path answers the origin. -/
theorem c8_degenerate_path_default_witness :
    demoSinglePointPath.getPointAt (9/4) = Vec3.zero :=
  c8_degenerate_path_default demoSinglePointPath (9/4) (by decide)

/-- Witness for C5: at `t = 61 s` with a successful draw the dormant scene
triggers. -/
theorem c5_trigger_guard_witness :
    (sceneFrame 61 0 0 [] demoDormantScene).dramaticEventTriggered = true :=
  (c5_trigger_guard 61 0 0 [] demoDormantScene rfl).1.mpr
    ⟨rfl, by norm_num, by norm_num⟩

/-- Witness for C6: at `t = 2.5 s` (progress `0.1`, growth phase) the scale
becomes `11` and the intensity `1`. -/
theorem c6_event_phases_witness :
    (dramaticEventFrame (5/2) 0 demoActiveScene).dramaticEvent
      = some { demoEvent with
                 scale := 1 + 100 * (1/10)
                 timeUniform := 5/2
                 intensity := 10 * (1/10) } :=
  ((c6_event_phases (5/2) 0 demoActiveScene demoEvent (1/10) rfl rfl rfl
      (by rw [show demoEvent.startTime = 0 from rfl,
              show ((5 : ℚ)/2 - 0) / 25 = 1/10 from by norm_num,
              min_eq_left (by norm_num : (1 : ℚ)/10 ≤ 1)])).1
    (by norm_num)).1

end
